import Mathlib

/-!
Verification of the blog-crawl pipeline (Django/Celery crawler).

Shallow embedding of the crawler code:
- `apps/crawler/models.py` : `CrawlSource` (with `success_rate` and the
  include/exclude pattern helpers), `CrawlJob`, `CrawledContent`, blog `Post`.
- `apps/crawler/tasks.py` : `trigger_crawl_task`, and the `WebCrawler`
  methods `crawl`, `_crawl_url`, `_is_valid_article`, `_process_article`,
  `_calculate_similarity`.

Modelling conventions:
- Django DB tables are Lean lists; a queryset with the default model
  ordering is the list sorted by the ordering field.
- Timestamps are natural numbers handed in as parameters (`django_timezone.now()`
  calls become explicit arguments).
- HTTP fetching and HTML extraction are an oracle
  `fetch : String -> Option (List Article)`: `none` models a request that
  raises (network error / bad status), `some cands` models a page whose
  element extraction (`_extract_article_data` over the selected elements)
  yields the candidate list `cands`; the validity gate is then applied to
  the candidates exactly as `_extract_articles` does.
- sha256 is an oracle `hashF : String -> String` applied to the exact string
  the code hashes (title ++ content).
- TF-IDF cosine similarity of two documents is an oracle
  `cos : String -> String -> Rat` (TF-IDF vectors are non-negative, so the
  genuine cosine lies in [0,1]; theorems that need the range assume it).
  A Boolean `vecFails` models the vectorizer raising (degenerate
  vocabulary), and `persistFails` models `CrawledContent.objects.create`
  raising (for example the uniqueness backstop in a dedup race).
- Ghost logs (`fetch_log`, `sim_log`) record which URLs were actually
  requested and which contents were actually similarity-scored; the code
  branches never read them.
-/

namespace BlogCrawl

/-- Python substring test `needle in hay`. -/
def strContains (hay needle : String) : Bool :=
  (List.range (hay.length + 1)).any (fun i => (hay.drop i).take needle.length == needle)

/-- `apps/crawler/models.py` : `CrawlSource` — the fields the crawl pipeline
reads, plus the lifecycle statistics fields. -/
structure CrawlSource where
  url : String
  content_selector : String
  title_selector : String
  max_pages : Nat
  follow_links : Bool
  include_patterns : String
  exclude_patterns : String
  last_crawled_at : Option Nat
  total_crawls : Nat
  successful_crawls : Nat
  failed_crawls : Nat
  total_posts_found : Nat
  deriving Repr, DecidableEq

/-- `CrawlSource.success_rate` : percentage of successful crawls
(`(successful_crawls / total_crawls) * 100`, `0` when `total_crawls = 0`). -/
def success_rate (s : CrawlSource) : ℚ :=
  if s.total_crawls = 0 then 0
  else ((s.successful_crawls : ℚ) / (s.total_crawls : ℚ)) * 100

/-- `CrawlSource.get_include_patterns_list` : split on newlines, strip,
drop empty lines. -/
def get_include_patterns_list (s : CrawlSource) : List String :=
  if s.include_patterns = "" then []
  else ((s.include_patterns.splitOn "\n").map String.trim).filter (fun p => p ≠ "")

/-- `CrawlSource.get_exclude_patterns_list` : split on newlines, strip,
drop empty lines. -/
def get_exclude_patterns_list (s : CrawlSource) : List String :=
  if s.exclude_patterns = "" then []
  else ((s.exclude_patterns.splitOn "\n").map String.trim).filter (fun p => p ≠ "")

/-- A transient extracted article candidate (the dict built by
`_extract_article_data`): absent `author` is the empty string, absent
`published_date` is `none`. -/
structure Article where
  title : String
  content : String
  author : String
  published_date : Option Nat
  url : String
  raw_html : String
  deriving Repr, DecidableEq

/-- `WebCrawler._is_valid_article` : title and content non-empty, content at
least 100 characters, URL passes the include/exclude substring patterns. -/
def is_valid_article (source : CrawlSource) (article : Article) : Bool :=
  if article.title = "" ∨ article.content = "" then false
  else if article.content.length < 100 then false
  else if get_include_patterns_list source ≠ [] ∧
      ¬ ((get_include_patterns_list source).any (fun p => strContains article.url p) = true) then
    false
  else if get_exclude_patterns_list source ≠ [] ∧
      (get_exclude_patterns_list source).any (fun p => strContains article.url p) = true then
    false
  else true

/-- `apps/crawler/models.py` : `CrawlJob` — status, timing and result
counter fields written by `trigger_crawl_task`. -/
structure CrawlJob where
  status : String
  started_at : Option Nat
  completed_at : Option Nat
  duration : Option Int
  pages_crawled : Nat
  posts_found : Nat
  posts_created : Nat
  duplicates_found : Nat
  errors_count : Nat
  error_message : String
  deriving Repr, DecidableEq

/-- `apps/crawler/models.py` : `CrawledContent` — the fields
`_process_article` writes (status defaults to pending). -/
structure CrawledContent where
  source_url : String
  title : String
  content : String
  author : String
  published_date : Option Nat
  status : String
  content_hash : String
  similarity_score : ℚ
  raw_html : String
  word_count : Nat
  deriving Repr, DecidableEq

/-- `apps/blog/models.py` : `Post` — the fields the similarity corpus query
reads (`status`, `content`) plus the two timestamp fields relevant to the
ordering (`Meta.ordering = [-created_at]` versus publication time). -/
structure Post where
  content : String
  status : String
  created_at : Nat
  published_at : Nat
  deriving Repr, DecidableEq

/-- Stable insertion into a list sorted descending by `key` (an element is
placed after existing elements with a key at least as large). -/
def insertPostDescBy (key : Post → Nat) (p : Post) : List Post → List Post
  | [] => [p]
  | q :: qs =>
    if key q ≥ key p then q :: insertPostDescBy key p qs
    else p :: q :: qs

/-- Stable sort of posts, descending by `key`. -/
def sortPostsDescBy (key : Post → Nat) (l : List Post) : List Post :=
  l.foldr (insertPostDescBy key) []

/-- The corpus query of `_calculate_similarity` :
`Post.objects.filter(status=published).values_list(content)[:100]` under the
model default ordering `[-created_at]` — the published posts sorted by
creation time, newest created first, truncated to 100, projected to
contents. -/
def publishedContentsByCreated (blog : List Post) : List String :=
  ((sortPostsDescBy (fun p => p.created_at)
      (blog.filter (fun p => p.status = "published"))).take 100).map
    (fun p => p.content)

/-- The corpus as the spec words it (for comparison with
`publishedContentsByCreated`): up to 100 most-recently-PUBLISHED content
bodies, ordered by publication time, most recent first. -/
def publishedContentsSpecRecency (blog : List Post) : List String :=
  ((sortPostsDescBy (fun p => p.published_at)
      (blog.filter (fun p => p.status = "published"))).take 100).map
    (fun p => p.content)

/-- `numpy` max over the similarity row: maximum of a list of rationals
(0 for the empty list, which the code never reaches). -/
def listMax : List ℚ → ℚ
  | [] => 0
  | [x] => x
  | x :: y :: t => max x (listMax (y :: t))

/-- `WebCrawler._calculate_similarity` : empty corpus gives 0.0; a
vectorizer exception (the surrounding try/except) gives 0.0; otherwise the
maximum cosine similarity between the candidate content and each corpus
document. -/
def calculate_similarity (cos : String → String → ℚ) (vecFails : Bool)
    (blog : List Post) (content : String) : ℚ :=
  let corpus := publishedContentsByCreated blog
  if corpus = [] then 0
  else if vecFails then 0
  else listMax (corpus.map (fun d => cos content d))

/-- The `results` dict of `WebCrawler`. -/
structure Results where
  pages_crawled : Nat
  posts_found : Nat
  posts_created : Nat
  duplicates_found : Nat
  errors_count : Nat
  deriving Repr, DecidableEq

/-- Mutable crawler state threaded through a run: the global
`CrawledContent` table, the `results` dict, the run-scoped `visited_urls`
set, plus two ghost logs — URLs actually requested over HTTP, and contents
actually similarity-scored. -/
structure CrawlState where
  store : List CrawledContent
  results : Results
  visited : List String
  fetch_log : List String
  sim_log : List String
  deriving Repr, DecidableEq

/-- The record `CrawledContent.objects.create(...)` builds in
`_process_article`. -/
def mkCrawledContent (article : Article) (h : String) (score : ℚ) : CrawledContent :=
  { source_url := article.url
    title := article.title
    content := article.content
    author := article.author
    published_date := article.published_date
    status := "pending"
    content_hash := h
    similarity_score := score
    raw_html := article.raw_html
    word_count := ((article.content.splitOn " ").filter (fun w => w ≠ "")).length }

/-- `WebCrawler._process_article` : hash title ++ content; an existing
record with that hash counts a duplicate and nothing else happens;
otherwise compute similarity, then create the record — a create that
raises is caught by the surrounding except and counts one error. -/
def process_article (hashF : String → String) (cos : String → String → ℚ)
    (vecFails : Bool) (persistFails : Article → Bool) (blog : List Post)
    (st : CrawlState) (article : Article) : CrawlState :=
  if st.store.any
      (fun r => r.content_hash = hashF (article.title ++ article.content)) = true then
    { st with results := { st.results with
        duplicates_found := st.results.duplicates_found + 1 } }
  else if persistFails article = true then
    { st with
      sim_log := st.sim_log ++ [article.content]
      results := { st.results with
        errors_count := st.results.errors_count + 1 } }
  else
    { st with
      sim_log := st.sim_log ++ [article.content]
      store := st.store ++
        [mkCrawledContent article (hashF (article.title ++ article.content))
          (calculate_similarity cos vecFails blog article.content)]
      results := { st.results with
        posts_found := st.results.posts_found + 1
        posts_created := st.results.posts_created + 1 } }

/-- `WebCrawler._crawl_url` : no-op when the URL was already visited or the
page budget is spent; otherwise request the page — a raising request is
caught, counting one error — and on success mark visited, count the page,
and run every candidate that passes the validity gate through
`_process_article`. -/
def crawl_url (fetch : String → Option (List Article)) (hashF : String → String)
    (cos : String → String → ℚ) (vecFails : Bool) (persistFails : Article → Bool)
    (blog : List Post) (source : CrawlSource) (st : CrawlState) (url : String) :
    CrawlState :=
  if url ∈ st.visited ∨ st.results.pages_crawled ≥ source.max_pages then st
  else
    match fetch url with
    | none =>
      { st with
        fetch_log := st.fetch_log ++ [url]
        results := { st.results with errors_count := st.results.errors_count + 1 } }
    | some candidates =>
      (candidates.filter (fun a => is_valid_article source a)).foldl
        (process_article hashF cos vecFails persistFails blog)
        { st with
          fetch_log := st.fetch_log ++ [url]
          visited := st.visited ++ [url]
          results := { st.results with
            pages_crawled := st.results.pages_crawled + 1 } }

/-- `WebCrawler.crawl` : fresh results and visited set, crawl the source
root URL; `_crawl_additional_pages` is `pass`, so the follow-links branch
changes nothing. `_crawl_url` catches its own exceptions, so the
try/except here never fires on a fetch failure. -/
def crawl (fetch : String → Option (List Article)) (hashF : String → String)
    (cos : String → String → ℚ) (vecFails : Bool) (persistFails : Article → Bool)
    (blog : List Post) (source : CrawlSource) (store0 : List CrawledContent) :
    CrawlState :=
  crawl_url fetch hashF cos vecFails persistFails blog source
    { store := store0
      results := { pages_crawled := 0, posts_found := 0, posts_created := 0
                   duplicates_found := 0, errors_count := 0 }
      visited := []
      fetch_log := []
      sim_log := [] }
    source.url

/-- The persistent state `trigger_crawl_task` touches: the job row, its
source row, the `CrawledContent` table and the blog `Post` table. -/
structure World where
  job : CrawlJob
  source : CrawlSource
  store : List CrawledContent
  blog : List Post
  deriving Repr, DecidableEq

/-- `trigger_crawl_task` : mark the job running, crawl, then persist the
results and the success statistics. `resultsSaveFails` models the
`job.save()` on the results raising: the except branch re-reads the job
row (whose last saved state is the running one, pre-run counters), marks
it failed with an error message, and bumps only `total_crawls` and
`failed_crawls` on the source. `t0` and `t1` are the start and
termination clock readings. -/
def trigger_crawl_task (fetch : String → Option (List Article))
    (hashF : String → String) (cos : String → String → ℚ) (vecFails : Bool)
    (persistFails : Article → Bool) (resultsSaveFails : Bool) (t0 t1 : Nat)
    (w : World) : World :=
  if resultsSaveFails then
    { w with
      job := { w.job with
        status := "failed"
        started_at := some t0
        completed_at := some t1
        error_message := "crawl error" }
      source := { w.source with
        total_crawls := w.source.total_crawls + 1
        failed_crawls := w.source.failed_crawls + 1 }
      store := (crawl fetch hashF cos vecFails persistFails w.blog w.source w.store).store }
  else
    { w with
      job := { w.job with
        status := "completed"
        started_at := some t0
        completed_at := some t1
        duration := some ((t1 : Int) - (t0 : Int))
        pages_crawled :=
          (crawl fetch hashF cos vecFails persistFails w.blog w.source w.store).results.pages_crawled
        posts_found :=
          (crawl fetch hashF cos vecFails persistFails w.blog w.source w.store).results.posts_found
        posts_created :=
          (crawl fetch hashF cos vecFails persistFails w.blog w.source w.store).results.posts_created
        duplicates_found :=
          (crawl fetch hashF cos vecFails persistFails w.blog w.source w.store).results.duplicates_found
        errors_count :=
          (crawl fetch hashF cos vecFails persistFails w.blog w.source w.store).results.errors_count }
      source := { w.source with
        last_crawled_at := some t1
        total_crawls := w.source.total_crawls + 1
        successful_crawls := w.source.successful_crawls + 1
        total_posts_found := w.source.total_posts_found +
          (crawl fetch hashF cos vecFails persistFails w.blog w.source w.store).results.posts_found }
      store := (crawl fetch hashF cos vecFails persistFails w.blog w.source w.store).store }

/-! ## Helper lemmas -/

/-- `_process_article` never touches `pages_crawled`. -/
theorem process_article_pages (hashF : String → String) (cos : String → String → ℚ)
    (vecFails : Bool) (persistFails : Article → Bool) (blog : List Post)
    (st : CrawlState) (a : Article) :
    (process_article hashF cos vecFails persistFails blog st a).results.pages_crawled
      = st.results.pages_crawled := by
  unfold process_article
  split_ifs <;> rfl

/-- Folding `_process_article` over a candidate list never touches
`pages_crawled`. -/
theorem foldl_process_pages (hashF : String → String) (cos : String → String → ℚ)
    (vecFails : Bool) (persistFails : Article → Bool) (blog : List Post) :
    ∀ (l : List Article) (st : CrawlState),
      (l.foldl (process_article hashF cos vecFails persistFails blog) st).results.pages_crawled
        = st.results.pages_crawled := by
  intro l
  induction l with
  | nil => intro st; rfl
  | cons a t ih =>
    intro st
    simp only [List.foldl_cons]
    rw [ih, process_article_pages]

/-- One `_process_article` step grows `posts_found`, `posts_created` and the
content table in lockstep. -/
theorem process_article_counts (hashF : String → String) (cos : String → String → ℚ)
    (vecFails : Bool) (persistFails : Article → Bool) (blog : List Post)
    (st : CrawlState) (a : Article) (st' : CrawlState)
    (hst : st' = process_article hashF cos vecFails persistFails blog st a) :
    st'.results.posts_found + st.store.length = st.results.posts_found + st'.store.length ∧
    st'.results.posts_created + st.store.length = st.results.posts_created + st'.store.length := by
  subst hst
  unfold process_article
  split_ifs <;> (simp [List.length_append]; try omega)

/-- Folding `_process_article` grows `posts_found`, `posts_created` and the
content table in lockstep. -/
theorem foldl_process_counts (hashF : String → String) (cos : String → String → ℚ)
    (vecFails : Bool) (persistFails : Article → Bool) (blog : List Post) :
    ∀ (l : List Article) (st : CrawlState),
      (l.foldl (process_article hashF cos vecFails persistFails blog) st).results.posts_found
          + st.store.length
        = st.results.posts_found
          + (l.foldl (process_article hashF cos vecFails persistFails blog) st).store.length ∧
      (l.foldl (process_article hashF cos vecFails persistFails blog) st).results.posts_created
          + st.store.length
        = st.results.posts_created
          + (l.foldl (process_article hashF cos vecFails persistFails blog) st).store.length := by
  intro l
  induction l with
  | nil => intro st; exact ⟨rfl, rfl⟩
  | cons a t ih =>
    intro st
    simp only [List.foldl_cons]
    have h1 := process_article_counts hashF cos vecFails persistFails blog st a _ rfl
    have h2 := ih (process_article hashF cos vecFails persistFails blog st a)
    omega

/-- Number of records in the content table carrying a given hash. -/
def countHash (h : String) (l : List CrawledContent) : Nat :=
  (l.filter (fun r => r.content_hash = h)).length

/-- Appending one record changes `countHash` by 1 exactly when the record
carries the hash. -/
theorem countHash_append_record (h : String) (l : List CrawledContent) (r : CrawledContent) :
    countHash h (l ++ [r]) = countHash h l + (if r.content_hash = h then 1 else 0) := by
  simp only [countHash, List.filter_append]
  split_ifs with hr <;> simp [hr]

/-- The existence check of the dedup gate agrees with `countHash`. -/
theorem any_hash_eq_countHash (h : String) (l : List CrawledContent) :
    (l.any (fun r => r.content_hash = h) = true) ↔ 0 < countHash h l := by
  simp only [countHash, List.any_eq_true, List.length_pos, ne_eq,
    List.filter_eq_nil_iff, decide_eq_true_eq, not_forall]
  constructor
  · rintro ⟨r, hr, hh⟩
    exact ⟨r, hr, by simp [hh]⟩
  · rintro ⟨r, hr, hh⟩
    exact ⟨r, hr, by simpa using hh⟩

/-- `_process_article`, duplicate branch: an existing record with the hash
only bumps `duplicates_found`. -/
theorem process_article_dup (hashF : String → String) (cos : String → String → ℚ)
    (vecFails : Bool) (persistFails : Article → Bool) (blog : List Post)
    (st : CrawlState) (a : Article)
    (hany : st.store.any
      (fun r => r.content_hash = hashF (a.title ++ a.content)) = true) :
    process_article hashF cos vecFails persistFails blog st a =
      { st with results := { st.results with
          duplicates_found := st.results.duplicates_found + 1 } } := by
  unfold process_article
  simp [hany]

/-- `_process_article`, failing-create branch: the caught exception only
bumps `errors_count` (after the similarity score was computed). -/
theorem process_article_fail (hashF : String → String) (cos : String → String → ℚ)
    (vecFails : Bool) (persistFails : Article → Bool) (blog : List Post)
    (st : CrawlState) (a : Article)
    (hany : st.store.any
      (fun r => r.content_hash = hashF (a.title ++ a.content)) = false)
    (hp : persistFails a = true) :
    process_article hashF cos vecFails persistFails blog st a =
      { st with
        sim_log := st.sim_log ++ [a.content]
        results := { st.results with
          errors_count := st.results.errors_count + 1 } } := by
  unfold process_article
  simp [hany, hp]

/-- `_process_article`, persisting branch: the record is created and the
two post counters bump together. -/
theorem process_article_persist (hashF : String → String) (cos : String → String → ℚ)
    (vecFails : Bool) (persistFails : Article → Bool) (blog : List Post)
    (st : CrawlState) (a : Article)
    (hany : st.store.any
      (fun r => r.content_hash = hashF (a.title ++ a.content)) = false)
    (hp : persistFails a = false) :
    process_article hashF cos vecFails persistFails blog st a =
      { st with
        sim_log := st.sim_log ++ [a.content]
        store := st.store ++
          [mkCrawledContent a (hashF (a.title ++ a.content))
            (calculate_similarity cos vecFails blog a.content)]
        results := { st.results with
          posts_found := st.results.posts_found + 1
          posts_created := st.results.posts_created + 1 } } := by
  unfold process_article
  simp [hany, hp]

/-! ## Claims -/

/-- C3 counterexample: a source with 1 successful crawl out of 2 total.
The claim says `success_rate` is `successful_crawls / total_crawls`, which
would be 1/2; the code returns the percentage 50. -/
def srcHalf : CrawlSource :=
  { url := "http://s", content_selector := "", title_selector := "",
    max_pages := 10, follow_links := true, include_patterns := "",
    exclude_patterns := "", last_crawled_at := none, total_crawls := 2,
    successful_crawls := 1, failed_crawls := 1, total_posts_found := 0 }

/-- C3: counterexample — for a source with `successful_crawls = 1` and
`total_crawls = 2`, `success_rate` is not the ratio 1/2 claimed by the
spec; it is 50. -/
theorem c3_success_rate_counterexample :
    success_rate srcHalf ≠ 1 / 2 ∧ success_rate srcHalf = 50 := by
  constructor <;> norm_num [success_rate, srcHalf]

/-- C3 (amended): `success_rate` returns the success percentage —
`(successful_crawls / total_crawls) * 100` — and 0 when
`total_crawls = 0`. Stated multiplicatively to avoid a bare restatement:
when `total_crawls` is nonzero, `success_rate * total_crawls
= successful_crawls * 100`. -/
theorem c3_success_rate_percentage (s : CrawlSource) :
    (s.total_crawls = 0 → success_rate s = 0) ∧
    (s.total_crawls ≠ 0 →
      success_rate s * (s.total_crawls : ℚ) = (s.successful_crawls : ℚ) * 100) := by
  constructor
  · intro h
    simp [success_rate, h]
  · intro h
    have h2 : (s.total_crawls : ℚ) ≠ 0 := Nat.cast_ne_zero.mpr h
    simp only [success_rate, h, if_false]
    field_simp

/-- C3 witness: the percentage identity evaluated on `srcHalf`. -/
theorem c3_success_rate_percentage_witness :
    success_rate srcHalf * ((2 : Nat) : ℚ) = ((1 : Nat) : ℚ) * 100 := by
  have H := c3_success_rate_percentage srcHalf
  exact H.2 (by norm_num [srcHalf])

/-- C5: the validity gate rejects a candidate exactly when its title or
content is empty, its content is shorter than 100 characters, include
patterns are configured and none occurs in the URL, or exclude patterns
are configured and one occurs in the URL; in particular content shorter
than 100 characters is always rejected. -/
theorem c5_validity_gate (source : CrawlSource) (article : Article) :
    (is_valid_article source article = false ↔
      article.title = "" ∨ article.content = "" ∨ article.content.length < 100 ∨
      (get_include_patterns_list source ≠ [] ∧
        ∀ p ∈ get_include_patterns_list source, strContains article.url p = false) ∨
      (get_exclude_patterns_list source ≠ [] ∧
        ∃ p ∈ get_exclude_patterns_list source, strContains article.url p = true)) ∧
    (article.content.length < 100 → is_valid_article source article = false) := by
  constructor
  · unfold is_valid_article
    split_ifs with h1 h2 h3 h4 <;>
      simp only [List.any_eq_true, not_exists, not_and, Bool.not_eq_true,
        ne_eq, false_iff, true_iff, not_or, not_lt, not_forall] at * <;>
      tauto
  · intro h
    unfold is_valid_article
    split_ifs <;> simp_all

/-- C5 witness: a candidate with a 5-character content is rejected by the
gate (the reject direction of the iff applied at a concrete input). -/
theorem c5_validity_gate_witness :
    is_valid_article srcHalf
      { title := "T", content := "short", author := "", published_date := none,
        url := "http://s/p", raw_html := "" } = false := by
  exact (c5_validity_gate srcHalf _).2 (by decide)

/-- C9: the fetcher guard — a URL already in the run visited set, or a
spent page budget, makes `_crawl_url` a strict no-op (nothing fetched,
no state change); and `pages_crawled` never exceeds `max_pages`. -/
theorem c9_fetcher_guard (fetch : String → Option (List Article))
    (hashF : String → String) (cos : String → String → ℚ) (vecFails : Bool)
    (persistFails : Article → Bool) (blog : List Post) (source : CrawlSource)
    (st : CrawlState) (url : String) :
    ((url ∈ st.visited ∨ st.results.pages_crawled ≥ source.max_pages) →
      crawl_url fetch hashF cos vecFails persistFails blog source st url = st) ∧
    (st.results.pages_crawled ≤ source.max_pages →
      (crawl_url fetch hashF cos vecFails persistFails blog source st url).results.pages_crawled
        ≤ source.max_pages) := by
  constructor
  · intro h
    unfold crawl_url
    simp [h]
  · intro hle
    unfold crawl_url
    split_ifs with hg
    · exact hle
    · push_neg at hg
      obtain ⟨hnv, hlt⟩ := hg
      cases hf : fetch url with
      | none => simpa using hle
      | some cands =>
        simp only
        rw [foldl_process_pages]
        simpa using hlt

/-- A crawl state that has already visited the root URL of `srcHalf`. -/
def stVisitedRoot : CrawlState :=
  { store := []
    results := { pages_crawled := 1, posts_found := 0, posts_created := 0
                 duplicates_found := 0, errors_count := 0 }
    visited := ["http://s"]
    fetch_log := ["http://s"]
    sim_log := [] }

/-- C9 witness: on a state that already visited the root URL, `_crawl_url`
changes nothing. -/
theorem c9_fetcher_guard_witness :
    crawl_url (fun _ => none) id (fun _ _ => 0) false (fun _ => false) [] srcHalf
      stVisitedRoot "http://s" = stVisitedRoot := by
  exact (c9_fetcher_guard (fun _ => none) id (fun _ _ => 0) false (fun _ => false) [] srcHalf
    stVisitedRoot "http://s").1 (Or.inl (by decide))

/-- C10: at the end of every run `posts_found = posts_created`, and both
equal the number of `CrawledContent` records the run added to the table
(they are only incremented together by the persistence step). -/
theorem c10_posts_found_eq_created (fetch : String → Option (List Article))
    (hashF : String → String) (cos : String → String → ℚ) (vecFails : Bool)
    (persistFails : Article → Bool) (blog : List Post) (source : CrawlSource)
    (store0 : List CrawledContent) :
    (crawl fetch hashF cos vecFails persistFails blog source store0).results.posts_found
      = (crawl fetch hashF cos vecFails persistFails blog source store0).results.posts_created ∧
    (crawl fetch hashF cos vecFails persistFails blog source store0).store.length
      = store0.length
        + (crawl fetch hashF cos vecFails persistFails blog source store0).results.posts_created := by
  unfold crawl crawl_url
  split_ifs with hg
  · simp
  · cases hf : fetch source.url with
    | none => simp
    | some cands =>
      simp only [Nat.zero_add, List.nil_append]
      have h := foldl_process_counts hashF cos vecFails persistFails blog
        (cands.filter (fun a => is_valid_article source a))
        { store := store0
          results := { pages_crawled := 1, posts_found := 0, posts_created := 0
                       duplicates_found := 0, errors_count := 0 }
          visited := [source.url]
          fetch_log := [source.url]
          sim_log := [] }
      simp at h ⊢
      omega

/-- C4: the dedup gate. The content hash is the digest of title ++ content;
a candidate whose hash already has a record (across all jobs) only bumps
`duplicates_found` — it is not persisted and not similarity-scored; and of
two candidates with identical title and content at most one record with
their common hash is ever added. -/
theorem c4_dedup_gate (hashF : String → String) (cos : String → String → ℚ)
    (vecFails : Bool) (persistFails : Article → Bool) (blog : List Post)
    (st st1 st2 : CrawlState) (a1 a2 : Article) (h : String)
    (hh : h = hashF (a1.title ++ a1.content))
    (ht : a1.title = a2.title) (hc : a1.content = a2.content)
    (h1 : st1 = process_article hashF cos vecFails persistFails blog st a1)
    (h2 : st2 = process_article hashF cos vecFails persistFails blog st1 a2) :
    countHash h st2.store ≤ countHash h st.store + 1 ∧
    (0 < countHash h st.store →
      st1.store = st.store ∧
      st1.results.duplicates_found = st.results.duplicates_found + 1 ∧
      st1.sim_log = st.sim_log) ∧
    (countHash h st.store = 0 → persistFails a1 = false →
      st1.store = st.store ++
        [mkCrawledContent a1 h (calculate_similarity cos vecFails blog a1.content)] ∧
      st2.store = st1.store ∧
      st2.results.duplicates_found = st1.results.duplicates_found + 1 ∧
      st2.sim_log = st1.sim_log) := by
  subst hh h1 h2
  have ha2 : hashF (a2.title ++ a2.content) = hashF (a1.title ++ a1.content) := by
    rw [← ht, ← hc]
  by_cases hany : st.store.any
      (fun r => r.content_hash = hashF (a1.title ++ a1.content)) = true
  · -- the first candidate already hits an existing record
    have e1 := process_article_dup hashF cos vecFails persistFails blog st a1 hany
    have s1 : (process_article hashF cos vecFails persistFails blog st a1).store
        = st.store := by rw [e1]
    have d1 : (process_article hashF cos vecFails persistFails blog st a1).results.duplicates_found
        = st.results.duplicates_found + 1 := by rw [e1]
    have l1 : (process_article hashF cos vecFails persistFails blog st a1).sim_log
        = st.sim_log := by rw [e1]
    have hany2 : ((process_article hashF cos vecFails persistFails blog st a1).store.any
        (fun r => r.content_hash = hashF (a2.title ++ a2.content))) = true := by
      rw [s1]
      simpa [ha2] using hany
    have e2 := process_article_dup hashF cos vecFails persistFails blog _ a2 hany2
    have s2 : (process_article hashF cos vecFails persistFails blog
          (process_article hashF cos vecFails persistFails blog st a1) a2).store
        = (process_article hashF cos vecFails persistFails blog st a1).store := by rw [e2]
    refine ⟨?_, ?_, ?_⟩
    · rw [s2, s1]
      omega
    · intro _
      exact ⟨s1, d1, l1⟩
    · intro hz _
      rw [any_hash_eq_countHash] at hany
      omega
  · -- no existing record with the hash
    simp only [Bool.not_eq_true] at hany
    have hz0 : countHash (hashF (a1.title ++ a1.content)) st.store = 0 := by
      by_contra hne
      have hpos := Nat.pos_of_ne_zero hne
      rw [← any_hash_eq_countHash, hany] at hpos
      exact Bool.false_ne_true hpos
    by_cases hp1 : persistFails a1 = true
    · -- the create for the first candidate raises: nothing persisted
      have e1 := process_article_fail hashF cos vecFails persistFails blog st a1 hany hp1
      have s1 : (process_article hashF cos vecFails persistFails blog st a1).store
          = st.store := by rw [e1]
      have hany2 : ((process_article hashF cos vecFails persistFails blog st a1).store.any
          (fun r => r.content_hash = hashF (a2.title ++ a2.content))) = false := by
        rw [s1]
        simpa [ha2] using hany
      refine ⟨?_, ?_, ?_⟩
      · by_cases hp2 : persistFails a2 = true
        · have e2 := process_article_fail hashF cos vecFails persistFails blog _ a2 hany2 hp2
          have s2 : (process_article hashF cos vecFails persistFails blog
                (process_article hashF cos vecFails persistFails blog st a1) a2).store
              = (process_article hashF cos vecFails persistFails blog st a1).store := by
            rw [e2]
          rw [s2, s1]
          omega
        · have e2 := process_article_persist hashF cos vecFails persistFails blog _ a2 hany2
            (by simpa using hp2)
          have s2 : (process_article hashF cos vecFails persistFails blog
                (process_article hashF cos vecFails persistFails blog st a1) a2).store
              = (process_article hashF cos vecFails persistFails blog st a1).store ++
                [mkCrawledContent a2 (hashF (a2.title ++ a2.content))
                  (calculate_similarity cos vecFails blog a2.content)] := by
            rw [e2]
          rw [s2, s1, countHash_append_record]
          split_ifs <;> omega
      · intro hpos
        omega
      · intro _ hp1f
        rw [hp1f] at hp1
        exact absurd hp1 Bool.false_ne_true
    · -- the first candidate is persisted; the second hits its record
      have hp1f : persistFails a1 = false := by simpa using hp1
      have e1 := process_article_persist hashF cos vecFails persistFails blog st a1 hany hp1f
      have s1 : (process_article hashF cos vecFails persistFails blog st a1).store
          = st.store ++
            [mkCrawledContent a1 (hashF (a1.title ++ a1.content))
              (calculate_similarity cos vecFails blog a1.content)] := by rw [e1]
      have hany2 : ((process_article hashF cos vecFails persistFails blog st a1).store.any
          (fun r => r.content_hash = hashF (a2.title ++ a2.content))) = true := by
        rw [s1]
        simp [ha2, List.any_append, mkCrawledContent]
      have e2 := process_article_dup hashF cos vecFails persistFails blog _ a2 hany2
      have s2 : (process_article hashF cos vecFails persistFails blog
            (process_article hashF cos vecFails persistFails blog st a1) a2).store
          = (process_article hashF cos vecFails persistFails blog st a1).store := by rw [e2]
      have d2 : (process_article hashF cos vecFails persistFails blog
            (process_article hashF cos vecFails persistFails blog st a1) a2).results.duplicates_found
          = (process_article hashF cos vecFails persistFails blog st a1).results.duplicates_found
            + 1 := by rw [e2]
      have l2 : (process_article hashF cos vecFails persistFails blog
            (process_article hashF cos vecFails persistFails blog st a1) a2).sim_log
          = (process_article hashF cos vecFails persistFails blog st a1).sim_log := by rw [e2]
      refine ⟨?_, ?_, ?_⟩
      · rw [s2, s1, countHash_append_record]
        split_ifs <;> omega
      · intro hpos
        omega
      · intro _ _
        exact ⟨s1, s2, d2, l2⟩

/-- C4 witness: two identical candidates against an empty content table —
the first is persisted, the second only bumps `duplicates_found`. -/
theorem c4_dedup_gate_witness :
    ((process_article id (fun _ _ => 0) false (fun _ => false) []
        (process_article id (fun _ _ => 0) false (fun _ => false) []
          stVisitedRoot
          { title := "T", content := "C", author := "", published_date := none,
            url := "u", raw_html := "" })
        { title := "T", content := "C", author := "", published_date := none,
          url := "u", raw_html := "" }).store.length ≤ 1) := by
  have H := c4_dedup_gate id (fun _ _ => 0) false (fun _ => false) []
    stVisitedRoot _ _
    { title := "T", content := "C", author := "", published_date := none,
      url := "u", raw_html := "" }
    { title := "T", content := "C", author := "", published_date := none,
      url := "u", raw_html := "" }
    "TC" rfl rfl rfl rfl rfl
  have h3 := H.2.2 (by decide) rfl
  rw [h3.2.1, h3.1]
  decide

/-- A fixed candidate article used by concrete instances. -/
def artTC : Article :=
  { title := "T", content := "C", author := "", published_date := none,
    url := "u", raw_html := "" }

/-- C7 counterexample: a failing create on a fresh (non-duplicate) candidate
leaves `duplicates_found` at 0 — the claim that it is incremented is false;
the error lands in `errors_count` instead. -/
theorem c7_persistence_error_counterexample :
    (process_article id (fun _ _ => 0) false (fun _ => true) []
      stVisitedRoot artTC).results.duplicates_found = 0 ∧
    (process_article id (fun _ _ => 0) false (fun _ => true) []
      stVisitedRoot artTC).results.errors_count = 1 := by
  decide

/-- C7 (amended): a persistence error on a non-duplicate candidate is
caught and counted as a generic per-article error — `errors_count` is
incremented, `duplicates_found` and the post counters are unchanged,
nothing is persisted — and the job does not fail (processing is total and
the loop continues with the next candidate). -/
theorem c7_persistence_error_reclassified (hashF : String → String)
    (cos : String → String → ℚ) (vecFails : Bool) (persistFails : Article → Bool)
    (blog : List Post) (st : CrawlState) (a : Article)
    (hany : st.store.any
      (fun r => r.content_hash = hashF (a.title ++ a.content)) = false)
    (hp : persistFails a = true) :
    (process_article hashF cos vecFails persistFails blog st a).results.errors_count
      = st.results.errors_count + 1 ∧
    (process_article hashF cos vecFails persistFails blog st a).results.duplicates_found
      = st.results.duplicates_found ∧
    (process_article hashF cos vecFails persistFails blog st a).store = st.store ∧
    (process_article hashF cos vecFails persistFails blog st a).results.posts_found
      = st.results.posts_found ∧
    (process_article hashF cos vecFails persistFails blog st a).results.posts_created
      = st.results.posts_created := by
  have e := process_article_fail hashF cos vecFails persistFails blog st a hany hp
  rw [e]
  exact ⟨rfl, rfl, rfl, rfl, rfl⟩

/-- C7 witness: the reclassification evaluated on a concrete fresh
candidate whose create fails. -/
theorem c7_persistence_error_witness :
    (process_article id (fun _ _ => 0) false (fun _ => true) []
      stVisitedRoot artTC).results.errors_count
      = stVisitedRoot.results.errors_count + 1 := by
  exact (c7_persistence_error_reclassified id (fun _ _ => 0) false (fun _ => true) []
    stVisitedRoot artTC (by decide) rfl).1

/-- Every member of a list of rationals is bounded by `listMax`. -/
theorem le_listMax : ∀ (l : List ℚ) (x : ℚ), x ∈ l → x ≤ listMax l := by
  intro l
  induction l with
  | nil =>
    intro x hx
    cases hx
  | cons a t ih =>
    intro x hx
    cases t with
    | nil =>
      have hxa : x = a := by simpa using hx
      simp [listMax, hxa]
    | cons b u =>
      show x ≤ max a (listMax (b :: u))
      rcases List.mem_cons.mp hx with h | h
      · subst h
        exact le_max_left _ _
      · exact le_trans (ih x h) (le_max_right _ _)

/-- `listMax` of a nonempty list is one of its members. -/
theorem listMax_mem : ∀ (l : List ℚ), l ≠ [] → listMax l ∈ l := by
  intro l
  induction l with
  | nil =>
    intro h
    exact absurd rfl h
  | cons a t ih =>
    intro _
    cases t with
    | nil => simp [listMax]
    | cons b u =>
      show max a (listMax (b :: u)) ∈ a :: b :: u
      rcases max_choice a (listMax (b :: u)) with h | h
      · rw [h]
        exact List.mem_cons_self _ _
      · rw [h]
        exact List.mem_cons_of_mem _ (ih (by simp))

/-- C6 (amended): `_calculate_similarity` returns 0.0 on an empty corpus,
0.0 on a vectorizer failure, a value within [0,1] whenever the cosine
oracle is (TF-IDF cosines are), and on a nonempty corpus without failure
it returns the maximum cosine similarity between the candidate and each
corpus document — where the corpus is the up-to-100 published posts most
recently CREATED (the model default ordering `-created_at`), not most
recently published. -/
theorem c6_similarity_score (cos : String → String → ℚ) (vecFails : Bool)
    (blog : List Post) (content : String)
    (hcos : ∀ x y, 0 ≤ cos x y ∧ cos x y ≤ 1) :
    (publishedContentsByCreated blog = [] →
      calculate_similarity cos vecFails blog content = 0) ∧
    calculate_similarity cos true blog content = 0 ∧
    0 ≤ calculate_similarity cos vecFails blog content ∧
    calculate_similarity cos vecFails blog content ≤ 1 ∧
    (vecFails = false → publishedContentsByCreated blog ≠ [] →
      (∀ d ∈ publishedContentsByCreated blog,
        cos content d ≤ calculate_similarity cos vecFails blog content) ∧
      calculate_similarity cos vecFails blog content
        ∈ (publishedContentsByCreated blog).map (fun d => cos content d)) := by
  by_cases hcorp : publishedContentsByCreated blog = []
  · refine ⟨fun _ => ?_, ?_, ?_, ?_, ?_⟩
    · simp [calculate_similarity, hcorp]
    · simp [calculate_similarity, hcorp]
    · simp [calculate_similarity, hcorp]
    · simp [calculate_similarity, hcorp]
    · intro _ hne
      exact absurd hcorp hne
  · have hmap : (publishedContentsByCreated blog).map (fun d => cos content d) ≠ [] := by
      simpa using hcorp
    have hmem := listMax_mem _ hmap
    have hbounds : 0 ≤ listMax ((publishedContentsByCreated blog).map (fun d => cos content d)) ∧
        listMax ((publishedContentsByCreated blog).map (fun d => cos content d)) ≤ 1 := by
      rcases List.mem_map.mp hmem with ⟨d, _, hd⟩
      rw [← hd]
      exact hcos content d
    cases vecFails with
    | true =>
      refine ⟨fun hz => absurd hz hcorp, ?_, ?_, ?_, ?_⟩
      · simp [calculate_similarity, hcorp]
      · simp [calculate_similarity, hcorp]
      · simp [calculate_similarity, hcorp]
      · intro hfalse
        cases hfalse
    | false =>
      have hval : calculate_similarity cos false blog content
          = listMax ((publishedContentsByCreated blog).map (fun d => cos content d)) := by
        simp [calculate_similarity, hcorp]
      refine ⟨fun hz => absurd hz hcorp, ?_, ?_, ?_, ?_⟩
      · simp [calculate_similarity, hcorp]
      · rw [hval]
        exact hbounds.1
      · rw [hval]
        exact hbounds.2
      · intro _ _
        rw [hval]
        constructor
        · intro d hd
          exact le_listMax _ _ (List.mem_map_of_mem _ hd)
        · exact hmem

/-- C6 witness: the score against an empty blog table is 0. -/
theorem c6_similarity_score_witness :
    calculate_similarity (fun _ _ => 0) false [] "x" = 0 := by
  exact (c6_similarity_score (fun _ _ => 0) false [] "x"
    (fun _ _ => by norm_num)).1 rfl

/-- C6 counterexample blog table: 101 published posts where creation order
is the reverse of publication order. Post 0 (content "special") was created
first but published last; under the code ordering (`-created_at`, take 100)
it is the one post excluded from the corpus, while the 100
most-recently-published posts include it. -/
def dbCE : List Post :=
  (List.range 101).map (fun i =>
    { content := if i = 0 then "special" else "other",
      status := "published", created_at := i, published_at := 200 - i })

/-- C6 counterexample cosine oracle: similarity 1 against "special",
0 against everything else. -/
def cosCE : String → String → ℚ := fun _ d => if d = "special" then 1 else 0

set_option maxRecDepth 100000 in
/-- C6 counterexample: on `dbCE` the code scores 0 (its corpus is the 100
most-recently-created published posts, all "other"), but the maximum cosine
similarity against the 100 most-recently-published bodies — the corpus the
claim describes — is 1. -/
theorem c6_similarity_corpus_counterexample :
    calculate_similarity cosCE false dbCE "x" ≠
      listMax ((publishedContentsSpecRecency dbCE).map (cosCE "x")) := by
  decide

/-- `crawl` when the root fetch raises and the page budget allows a fetch:
the error is swallowed inside `_crawl_url`, one error is counted, nothing
else happens. -/
theorem crawl_root_fetch_fails (fetch : String → Option (List Article))
    (hashF : String → String) (cos : String → String → ℚ) (vecFails : Bool)
    (persistFails : Article → Bool) (blog : List Post) (source : CrawlSource)
    (store0 : List CrawledContent)
    (hroot : fetch source.url = none) (hmp : 0 < source.max_pages) :
    crawl fetch hashF cos vecFails persistFails blog source store0 =
      { store := store0
        results := { pages_crawled := 0, posts_found := 0, posts_created := 0
                     duplicates_found := 0, errors_count := 1 }
        visited := []
        fetch_log := [source.url]
        sim_log := [] } := by
  unfold crawl crawl_url
  rw [if_neg (by simpa using Nat.pos_iff_ne_zero.mp hmp), hroot]
  rfl

/-- C1 counterexample world: a fresh job on a source with zeroed
statistics; the fetch oracle raises on every URL, including the root. -/
def worldZ : World :=
  { job := { status := "pending", started_at := none, completed_at := none,
             duration := none, pages_crawled := 0, posts_found := 0,
             posts_created := 0, duplicates_found := 0, errors_count := 0,
             error_message := "" }
    source := { url := "http://s", content_selector := "", title_selector := "",
                max_pages := 1, follow_links := true, include_patterns := "",
                exclude_patterns := "", last_crawled_at := none, total_crawls := 0,
                successful_crawls := 0, failed_crawls := 0, total_posts_found := 5 }
    store := []
    blog := [] }

/-- C1 counterexample: when the root fetch raises a network error the job
does NOT fail — it terminates with status completed, `failed_crawls` stays
0 and `successful_crawls` is incremented, contradicting the claimed
status=failed / failed_crawls+=1 outcome. -/
theorem c1_root_fetch_counterexample :
    (trigger_crawl_task (fun _ => none) id (fun _ _ => 0) false (fun _ => false)
      false 10 20 worldZ).job.status = "completed" ∧
    (trigger_crawl_task (fun _ => none) id (fun _ _ => 0) false (fun _ => false)
      false 10 20 worldZ).job.status ≠ "failed" ∧
    (trigger_crawl_task (fun _ => none) id (fun _ _ => 0) false (fun _ => false)
      false 10 20 worldZ).source.failed_crawls = 0 ∧
    (trigger_crawl_task (fun _ => none) id (fun _ _ => 0) false (fun _ => false)
      false 10 20 worldZ).source.successful_crawls = 1 := by
  decide

/-- C1 (amended): a network error fetching the root URL is swallowed by
`_crawl_url`: the run counts one error and no page, and the job terminates
completed, with `successful_crawls` (not `failed_crawls`) incremented. No
fetch failure aborts the job; the failure path only runs for exceptions
outside the crawl loop (such as a failing result save, modelled by
`resultsSaveFails`). -/
theorem c1_root_fetch_swallowed (fetch : String → Option (List Article))
    (hashF : String → String) (cos : String → String → ℚ) (vecFails : Bool)
    (persistFails : Article → Bool) (t0 t1 : Nat) (w : World)
    (hroot : fetch w.source.url = none) (hmp : 0 < w.source.max_pages) :
    (trigger_crawl_task fetch hashF cos vecFails persistFails false t0 t1 w).job.status
      = "completed" ∧
    (trigger_crawl_task fetch hashF cos vecFails persistFails false t0 t1 w).job.errors_count
      = 1 ∧
    (trigger_crawl_task fetch hashF cos vecFails persistFails false t0 t1 w).job.pages_crawled
      = 0 ∧
    (trigger_crawl_task fetch hashF cos vecFails persistFails false t0 t1 w).job.posts_found
      = 0 ∧
    (trigger_crawl_task fetch hashF cos vecFails persistFails false t0 t1 w).source.successful_crawls
      = w.source.successful_crawls + 1 ∧
    (trigger_crawl_task fetch hashF cos vecFails persistFails false t0 t1 w).source.failed_crawls
      = w.source.failed_crawls ∧
    (trigger_crawl_task fetch hashF cos vecFails persistFails false t0 t1 w).source.total_crawls
      = w.source.total_crawls + 1 := by
  have hc := crawl_root_fetch_fails fetch hashF cos vecFails persistFails w.blog w.source
    w.store hroot hmp
  unfold trigger_crawl_task
  rw [hc]
  exact ⟨rfl, rfl, rfl, rfl, rfl, rfl, rfl⟩

/-- C1 witness: the amended behavior evaluated on the concrete failing
world. -/
theorem c1_root_fetch_swallowed_witness :
    (trigger_crawl_task (fun _ => none) id (fun _ _ => 0) false (fun _ => false)
      false 10 20 worldZ).job.status = "completed" ∧
    (trigger_crawl_task (fun _ => none) id (fun _ _ => 0) false (fun _ => false)
      false 10 20 worldZ).source.successful_crawls
      = worldZ.source.successful_crawls + 1 := by
  have H := c1_root_fetch_swallowed (fun _ => none) id (fun _ _ => 0) false
    (fun _ => false) 10 20 worldZ rfl (by decide)
  exact ⟨H.1, H.2.2.2.2.1⟩

/-- A valid candidate (content of 120 characters) used by the failure-run
counterexample. -/
def artLong : Article :=
  { title := "T", content := String.mk (List.replicate 120 'a'), author := "",
    published_date := none, url := "http://s/p1", raw_html := "<x>" }

set_option maxRecDepth 100000 in
/-- C2 counterexample: a run that persists one record (partial progress)
and then hits a fatal failure at the result save. The claim demands
`total_posts_found += 1`, `last_crawled_at = now` and surviving job
counters; the code leaves `total_posts_found` at 5, `last_crawled_at`
unset, and the job counters at their pre-run zeros. -/
theorem c2_failure_preservation_counterexample :
    (trigger_crawl_task (fun _ => some [artLong]) id (fun _ _ => 0) false
      (fun _ => false) true 10 20 worldZ).store.length = 1 ∧
    (trigger_crawl_task (fun _ => some [artLong]) id (fun _ _ => 0) false
      (fun _ => false) true 10 20 worldZ).source.total_posts_found = 5 ∧
    (trigger_crawl_task (fun _ => some [artLong]) id (fun _ _ => 0) false
      (fun _ => false) true 10 20 worldZ).source.last_crawled_at = none ∧
    (trigger_crawl_task (fun _ => some [artLong]) id (fun _ _ => 0) false
      (fun _ => false) true 10 20 worldZ).job.posts_found = 0 := by
  decide

/-- C2 (amended): on a fatal failure nothing of the partial run results is
written back — the job keeps its pre-run counter fields, the source
`total_posts_found` and `last_crawled_at` are unchanged (they are updated
only on success) — while `ContentRecord`s persisted before the failure do
survive, and the job is marked failed with an error message. -/
theorem c2_failure_result_handling (fetch : String → Option (List Article))
    (hashF : String → String) (cos : String → String → ℚ) (vecFails : Bool)
    (persistFails : Article → Bool) (t0 t1 : Nat) (w : World) :
    (trigger_crawl_task fetch hashF cos vecFails persistFails true t0 t1 w).job.pages_crawled
      = w.job.pages_crawled ∧
    (trigger_crawl_task fetch hashF cos vecFails persistFails true t0 t1 w).job.posts_found
      = w.job.posts_found ∧
    (trigger_crawl_task fetch hashF cos vecFails persistFails true t0 t1 w).job.posts_created
      = w.job.posts_created ∧
    (trigger_crawl_task fetch hashF cos vecFails persistFails true t0 t1 w).job.duplicates_found
      = w.job.duplicates_found ∧
    (trigger_crawl_task fetch hashF cos vecFails persistFails true t0 t1 w).job.errors_count
      = w.job.errors_count ∧
    (trigger_crawl_task fetch hashF cos vecFails persistFails true t0 t1 w).source.total_posts_found
      = w.source.total_posts_found ∧
    (trigger_crawl_task fetch hashF cos vecFails persistFails true t0 t1 w).source.last_crawled_at
      = w.source.last_crawled_at ∧
    (trigger_crawl_task fetch hashF cos vecFails persistFails true t0 t1 w).job.status
      = "failed" ∧
    (trigger_crawl_task fetch hashF cos vecFails persistFails true t0 t1 w).store
      = (crawl fetch hashF cos vecFails persistFails w.blog w.source w.store).store := by
  exact ⟨rfl, rfl, rfl, rfl, rfl, rfl, rfl, rfl, rfl⟩

/-- C8: at every job termination — success or failure — `total_crawls` is
incremented by exactly 1 and exactly one of `successful_crawls` /
`failed_crawls` is incremented by exactly 1 (the other is unchanged); all
source statistics counters are monotonically non-decreasing across the
terminal update. -/
theorem c8_terminal_source_counters (fetch : String → Option (List Article))
    (hashF : String → String) (cos : String → String → ℚ) (vecFails : Bool)
    (persistFails : Article → Bool) (resultsSaveFails : Bool) (t0 t1 : Nat)
    (w w' : World)
    (hw : w' = trigger_crawl_task fetch hashF cos vecFails persistFails
      resultsSaveFails t0 t1 w) :
    w'.source.total_crawls = w.source.total_crawls + 1 ∧
    ((w'.source.successful_crawls = w.source.successful_crawls + 1 ∧
      w'.source.failed_crawls = w.source.failed_crawls) ∨
     (w'.source.successful_crawls = w.source.successful_crawls ∧
      w'.source.failed_crawls = w.source.failed_crawls + 1)) ∧
    w.source.total_crawls ≤ w'.source.total_crawls ∧
    w.source.successful_crawls ≤ w'.source.successful_crawls ∧
    w.source.failed_crawls ≤ w'.source.failed_crawls ∧
    w.source.total_posts_found ≤ w'.source.total_posts_found := by
  subst hw
  cases resultsSaveFails with
  | true =>
    exact ⟨rfl, Or.inr ⟨rfl, rfl⟩, Nat.le_succ _, Nat.le_refl _, Nat.le_succ _,
      Nat.le_refl _⟩
  | false =>
    exact ⟨rfl, Or.inl ⟨rfl, rfl⟩, Nat.le_succ _, Nat.le_succ _, Nat.le_refl _,
      Nat.le_add_right _ _⟩

/-- C8 witness: the terminal counter update evaluated on the concrete
failing-fetch world. -/
theorem c8_terminal_source_counters_witness :
    (trigger_crawl_task (fun _ => none) id (fun _ _ => 0) false (fun _ => false)
      false 10 20 worldZ).source.total_crawls = worldZ.source.total_crawls + 1 := by
  exact (c8_terminal_source_counters (fun _ => none) id (fun _ _ => 0) false
    (fun _ => false) false 10 20 worldZ _ rfl).1

end BlogCrawl
